import Mathlib

/-!
Shallow embedding of the sentiment-triggered outreach pipeline
(`analyze_and_support.py`), the trends fetcher (`fetch_x_trends.py`), and
the voice-backend memory fallback (`voice_support_backend/memory_manager.py`,
`rag_manager.py`, `main.py`).

External HTTP calls are modelled by passing the call's outcome
(`HttpResult`) as an argument; `json.loads` (an external library) is
modelled by passing a parser `String → Option Verdict`.  Everything the
repository's own code does is translated directly.
-/

/-- Outcome of an outbound HTTP call, mirroring the two `requests`
exception classes the code distinguishes (`HTTPError` is a subclass of
`RequestException`). -/
inductive HttpFailure where
  | httpError (status : Nat) (msg : String)
  | requestError (msg : String)
deriving Repr, DecidableEq

/-- `str(e)` for a requests exception, as used in the error messages. -/
def HttpFailure.message : HttpFailure → String
  | .httpError _ m => m
  | .requestError m => m

/-- Result of an HTTP call: either a decoded body or a raised failure. -/
inductive HttpResult (α : Type) where
  | ok (value : α)
  | fail (e : HttpFailure)
deriving Repr, DecidableEq

/-! ### Python string primitives
`str.split`, the `in` substring test, `str.strip`, `str.lower`, slicing —
modelled over `List Char` exactly as Python's semantics (non-overlapping
left-to-right split on a non-empty separator). -/

/-- Helper for `pySplit`: scan the text, cutting at each non-overlapping
occurrence of `sep` (Python `str.split(sep)` for non-empty `sep`).  The
fuel argument (initially the text's length, which bounds the number of
steps) only makes the recursion structural. -/
def splitLoop (sep : List Char) : Nat → List Char → List Char → List (List Char)
  | _, [], acc => [acc.reverse]
  | 0, rest, acc => [acc.reverse ++ rest]
  | fuel + 1, c :: rest, acc =>
    if List.isPrefixOf sep (c :: rest) then
      acc.reverse :: splitLoop sep fuel (List.drop (sep.length - 1) rest) []
    else
      splitLoop sep fuel rest (c :: acc)

/-- Python `s.split(sep)` for a non-empty separator. -/
def pySplit (s sep : String) : List String :=
  (splitLoop sep.data s.data.length s.data []).map List.asString

/-- Helper for `pyContains`: does `pat` occur in the text? -/
def containsAux (pat : List Char) : List Char → Bool
  | [] => pat.isEmpty
  | c :: rest => List.isPrefixOf pat (c :: rest) || containsAux pat rest

/-- Python `pat in s` (substring containment). -/
def pyContains (s pat : String) : Bool :=
  containsAux pat.data s.data

/-- Python `xs[:limit]` for an `int` limit (negative limits count from the
end). -/
def pySlice (limit : Int) (xs : List α) : List α :=
  if 0 ≤ limit then xs.take limit.toNat
  else xs.take (xs.length - (-limit).toNat)

/-- Python `s.strip()`: remove leading and trailing whitespace. -/
def pyStrip (s : String) : String :=
  (((s.data.dropWhile Char.isWhitespace).reverse.dropWhile Char.isWhitespace).reverse).asString

/-- Python `s.lower()` (ASCII case folding). -/
def pyLower (s : String) : String :=
  (s.data.map Char.toLower).asString

/-- Python `s[:n]` on a string, for a non-negative literal `n`. -/
def pyTake (n : Nat) (s : String) : String :=
  (s.data.take n).asString

example : pyStrip "  a b  " = "a b" := by decide
example : pyLower "NeGative" = "negative" := by decide
example : pyTake 3 "abcdef" = "abc" := by decide

example : pySplit "aXbXc" "X" = ["a", "b", "c"] := by decide
example : pySplit "aaa" "aa" = ["", "a"] := by decide
example : pySplit "" "X" = [""] := by decide
example : pyContains "hello" "ell" = true := by decide
example : pyContains "hello" "z" = false := by decide
example : pyContains "hello" "" = true := by decide
example : pySlice (-1) [1, 2, 3] = [1, 2] := by decide
example : pySlice 2 [1, 2, 3] = [1, 2] := by decide

/-! ### Data model (`analyze_and_support.py`)
JSON objects are modelled as structures whose fields are `Option`-valued
when the corresponding dictionary key may be absent. -/

/-- A sentiment verdict dictionary (`SentimentVerdict` in the spec).
`dict.get` on a missing key yields `none`. -/
structure Verdict where
  is_negative : Option Bool
  sentiment : Option String
  severity : Option String
  concerns : Option (List String)
  needs_support : Option Bool
  reasoning : Option String
deriving Repr, DecidableEq

/-- Python truthiness of an optional boolean field (`None` is falsy). -/
def truthy (o : Option Bool) : Bool :=
  o.getD false

/-- A normalized post record as built by `TwitterClient.search_posts`
(the `metrics` pass-through dictionary is not used by any pipeline
logic and is omitted). -/
structure Post where
  id : Option String
  text : String
  author_id : Option String
  username : String
  name : String
  created_at : Option String
deriving Repr, DecidableEq

/-! ### `GrokClient.analyze_sentiment` -/

/-- The markdown code-fence salvage step of `analyze_sentiment`
(lines 90–94): the text between the first `"```json"` marker and the
next `"```"` (or between the first two bare `"```"` markers), stripped;
the content unchanged when no fence is present. -/
def extractFenced (content : String) : String :=
  if pyContains content "```json" then
    pyStrip ((pySplit ((pySplit content "```json").getD 1 "") "```").getD 0 "")
  else if pyContains content "```" then
    pyStrip ((pySplit ((pySplit content "```").getD 1 "") "```").getD 0 "")
  else
    content

/-- The heuristic fallback verdict built when `json.loads` fails
(lines 100–107). -/
def heuristicVerdict (content : String) : Verdict :=
  { is_negative :=
      some (pyContains (pyLower content) "negative" || pyContains (pyLower content) "true")
    sentiment :=
      some (if pyContains (pyLower content) "negative" then "negative" else "neutral")
    severity := some "medium"
    concerns := some []
    needs_support := some true
    reasoning := some (pyTake 200 content) }

/-- The neutral default verdict returned when the Grok HTTP call raises a
`RequestException` (lines 109–118). -/
def apiErrorVerdict (e : HttpFailure) : Verdict :=
  { is_negative := some false
    sentiment := some "unknown"
    severity := some "low"
    concerns := some []
    needs_support := some false
    reasoning := some ("API error: " ++ e.message) }

/-- The JSON-salvage parse of the LLM content (lines 89–107): extract a
fenced block if present, try `json.loads` (passed in as `loads`, the
external library), and fall back to the heuristic verdict on a
`JSONDecodeError`. -/
def parseSentimentContent (loads : String → Option Verdict) (content : String) : Verdict :=
  let c := extractFenced content
  match loads c with
  | some analysis => analysis
  | none => heuristicVerdict c

/-- `GrokClient.analyze_sentiment`: `resp` is the outcome of the chat
HTTP call, carrying (on success) the content string extracted from
`choices[0].message.content`. -/
def analyze_sentiment (loads : String → Option Verdict) (resp : HttpResult String) : Verdict :=
  match resp with
  | .ok content => parseSentimentContent loads content
  | .fail e => apiErrorVerdict e

example :
    extractFenced "x ```json 42 ``` y" = "42" := by decide
example :
    extractFenced "a ``` 7 ``` b" = "7" := by decide
example :
    extractFenced "plain text" = "plain text" := by decide

/-! ### `TwitterClient.search_posts` -/

/-- The request parameters (query string and results cap) actually sent
to the search endpoint. -/
structure SearchParams where
  query : String
  max_results : Int
deriving Repr, DecidableEq

/-- Lines 214–219 of `search_posts`: default the query when blank, clamp
`max_results` to `[10, 100]`. -/
def searchRequestParams (query : String) (max_results : Int) : SearchParams :=
  { query := if query = "" ∨ pyStrip query = "" then "lang:en -is:retweet" else query
    max_results := max 10 (min max_results 100) }

/-- A tweet object from the search response's `data` array. -/
structure TweetObj where
  id : Option String
  text : Option String
  author_id : Option String
  created_at : Option String
deriving Repr, DecidableEq

/-- A user object from the search response's `includes.users` array
(keyed by its required `id`). -/
structure UserObj where
  id : String
  username : Option String
  name : Option String
deriving Repr, DecidableEq

/-- The decoded JSON body of a search response; `none` fields model
absent keys (`"errors" in data`, `includes.users`, `data`). -/
structure SearchBody where
  errors : Option (List String)
  includes_users : Option (List UserObj)
  data : Option (List TweetObj)
deriving Repr, DecidableEq

/-- One iteration of the normalization loop (lines 257–269): build a
`Post` from a tweet, looking its author up in the users dictionary
(an association list where the most recently inserted binding wins,
like a Python dict comprehension). -/
def normalizePost (users : List (String × UserObj)) (tweet : TweetObj) : Post :=
  let user : Option UserObj :=
    match tweet.author_id with
    | some aid => (users.lookup aid)
    | none => none
  { id := tweet.id
    text := tweet.text.getD ""
    author_id := tweet.author_id
    username := (user.bind UserObj.username).getD "unknown"
    name := (user.bind UserObj.name).getD "Unknown"
    created_at := tweet.created_at }

/-- `TwitterClient.search_posts`: returns the request parameters it
builds and the normalized post list.  Any `requests` failure is caught
and yields `[]`; a body with an `errors` key also yields `[]`. -/
def search_posts (query : String) (max_results : Int)
    (resp : HttpResult SearchBody) : SearchParams × List Post :=
  let params := searchRequestParams query max_results
  match resp with
  | .fail _ => (params, [])
  | .ok data =>
    if data.errors.isSome then (params, [])
    else
      let users := (data.includes_users.getD []).foldl (fun acc u => (u.id, u) :: acc) []
      (params, (data.data.getD []).map (normalizePost users))

/-! ### `TwitterClient.get_user_info` -/

/-- A user-lookup body's `data` object. -/
structure UserInfo where
  username : Option String
  name : Option String
  description : Option String
  location : Option String
  url : Option String
deriving Repr, DecidableEq

/-- The decoded JSON body of a user-lookup response. -/
structure GetUserBody where
  data : Option UserInfo
deriving Repr, DecidableEq

/-- `TwitterClient.get_user_info`: on success `response.json().get("data", {})`
(an absent `data` key gives the empty — falsy — dictionary, which every
caller treats like `None`); on a `requests` failure, `None`. -/
def get_user_info (resp : HttpResult GetUserBody) : Option UserInfo :=
  match resp with
  | .ok body => body.data
  | .fail _ => none

/-! ### `fetch_x_trends.fetch_trends_by_woeid` -/

/-- A trend entry of a trends response. -/
structure Trend where
  trend_name : Option String
  tweet_count : Option Nat
deriving Repr, DecidableEq

/-- The decoded JSON body of a trends response. -/
structure TrendsBody where
  errors : Option (List String)
  data : Option (List Trend)
deriving Repr, DecidableEq

/-- `fetch_trends_by_woeid` (lines 19–71 of `fetch_x_trends.py`): on
success it returns `response.json()`; on either exception branch it
prints diagnostics and then `raise`s, so the failure propagates to the
caller (`Except.error`). -/
def fetch_trends_by_woeid (woeid : Int) (max_trends : Int)
    (trend_fields : Option (List String)) (resp : HttpResult TrendsBody) :
    Except HttpFailure TrendsBody :=
  match resp with
  | .ok body => .ok body
  | .fail e => .error e

/-! ### `scan_and_analyze` (the outreach pipeline) -/

/-- The accept/reject test of the filter stage (line 419):
`analysis.get("is_negative") and analysis.get("needs_support")`. -/
def acceptsVerdict (analysis : Verdict) : Bool :=
  truthy analysis.is_negative && truthy analysis.needs_support

/-- The analysis loop (lines 410–430): classify each post in fetched
order and keep `(post, analysis)` pairs passing the filter. -/
def negativePostsLoop (analyze : Post → Verdict) : List Post → List (Post × Verdict)
  | [] => []
  | post :: rest =>
    let analysis := analyze post
    if acceptsVerdict analysis then
      (post, analysis) :: negativePostsLoop analyze rest
    else
      negativePostsLoop analyze rest

/-- A contact-information dictionary as built by
`TwitterClient.find_contact_info` (all fields optional; the empty
dictionary returned on a failed lookup has every field `none`). -/
structure ContactInfo where
  username : Option String
  name : Option String
  description : Option String
  location : Option String
  url : Option String
  profile_url : Option String
deriving Repr, DecidableEq

/-- Python `str(x)` on an optional string (`None` prints as `"None"`),
as an f-string interpolates it. -/
def pyStr (o : Option String) : String :=
  o.getD "None"

/-- An output record of the pipeline (lines 464–474; the wall-clock
`timestamp` field is omitted). -/
structure OutreachRecord where
  username : Option String
  user_id : Option String
  profile_url : Option String
  original_post : String
  post_url : Option String
  sentiment_analysis : Verdict
  support_message : String
  contact_info : ContactInfo
deriving Repr, DecidableEq

/-- Build one result entry (lines 464–474).  `post_url` is present only
when the post's `id` is truthy. -/
def mkOutreachRecord (post : Post) (analysis : Verdict)
    (contact_info : ContactInfo) (support_message : String) : OutreachRecord :=
  { username := contact_info.username
    user_id := post.author_id
    profile_url := contact_info.profile_url
    original_post := post.text
    post_url :=
      match post.id with
      | some pid =>
        if pid = "" then none
        else some ("https://twitter.com/" ++ pyStr contact_info.username ++ "/status/" ++ pid)
      | none => none
    sentiment_analysis := analysis
    support_message := support_message
    contact_info := contact_info }

/-- The processing loop over accepted posts (lines 441–492): look up
contact info, draft a message, and accumulate one record per accepted
post, in order.  `contact` and `draft` stand for the two
externally-backed calls (`find_contact_info`,
`generate_support_message`). -/
def processNegative (contact : Post → ContactInfo) (draft : Post → Verdict → String) :
    List (Post × Verdict) → List OutreachRecord
  | [] => []
  | (post, analysis) :: rest =>
    mkOutreachRecord post analysis (contact post) (draft post analysis) ::
      processNegative contact draft rest

/-- The JSON report written at the end of a run (lines 496–503; the
wall-clock `scan_timestamp` is omitted). -/
structure Report where
  query : String
  total_posts_scanned : Nat
  negative_posts_found : Nat
  results : List OutreachRecord
deriving Repr, DecidableEq

/-- The persistence stage (lines 494–504): the guard `if results_data:`
writes one report file only when at least one record was produced. -/
def savedReports (query : String) (posts : List Post)
    (negative_posts : List (Post × Verdict)) (results_data : List OutreachRecord) :
    List Report :=
  if results_data.isEmpty then []
  else
    [{ query := query
       total_posts_scanned := posts.length
       negative_posts_found := negative_posts.length
       results := results_data }]

/-- `scan_and_analyze` (lines 375–509), given the fetched posts and the
three external calls: returns the accumulated records and the list of
report files written.  An empty search result returns early (line 401)
with nothing written. -/
def scan_and_analyze (analyze : Post → Verdict) (contact : Post → ContactInfo)
    (draft : Post → Verdict → String) (query : String) (posts : List Post) :
    List OutreachRecord × List Report :=
  if posts.isEmpty then ([], [])
  else
    let negative_posts := negativePostsLoop analyze posts
    let results_data := processNegative contact draft negative_posts
    (results_data, savedReports query posts negative_posts results_data)

/-! ### `voice_support_backend`: memory fallback and health check -/

/-- A stored memory entry (`_save_file_memory` writes `text`,
`timestamp`, `metadata`; `_search_file_memories` reads `text` with
`mem.get("text", "")`). -/
structure MemoryEntry where
  text : Option String
  timestamp : Option String
deriving Repr, DecidableEq

/-- `MemoryManager._search_file_memories` (lines 196–208): keep the
stored entries whose text contains the query case-insensitively, then
slice to `limit`. -/
def searchFileMemories (memories : List MemoryEntry) (query : String) (limit : Int) :
    List MemoryEntry :=
  pySlice limit
    (memories.filter fun mem => pyContains (pyLower (mem.text.getD "")) (pyLower query))

/-- The external Mem0 search call: it may raise (`Except.error`) or
return a possibly-falsy result list. -/
structure Mem0Backend where
  searchFn : String → String → Int → Except String (Option (List MemoryEntry))

/-- `MemoryManager.search_memories` (lines 99–113): use Mem0 when the
library loaded and initialization produced a backend; any Mem0 error —
and the unavailable case — falls back to the file search. -/
def search_memories (mem0_available : Bool) (memory : Option Mem0Backend)
    (stored : List MemoryEntry) (user_id query : String) (limit : Int) :
    List MemoryEntry :=
  match mem0_available, memory with
  | true, some m =>
    match m.searchFn user_id query limit with
    | .ok results => results.getD []
    | .error _ => searchFileMemories stored query limit
  | _, _ => searchFileMemories stored query limit

/-- `MemoryManager.is_ready` (lines 48–50): `return self.ready or True`. -/
def MemoryManager.is_ready (ready : Bool) : Bool :=
  ready || true

/-- `RAGManager.is_ready` (lines 53–55): `return self.ready or True`. -/
def RAGManager.is_ready (ready : Bool) : Bool :=
  ready || true

/-- The `/health` response body (`main.py` lines 97–105; the wall-clock
timestamp is omitted). -/
structure HealthResponse where
  status : String
  memory : Bool
  rag : Bool
deriving Repr, DecidableEq

/-- The `health_check` endpoint, as a function of the two managers'
`ready` states. -/
def health_check (memReady ragReady : Bool) : HealthResponse :=
  { status := "healthy"
    memory := MemoryManager.is_ready memReady
    rag := RAGManager.is_ready ragReady }

/-! ### Helper lemmas -/

/-- An optional boolean field is truthy exactly when it holds `true`. -/
theorem truthy_iff (o : Option Bool) : truthy o = true ↔ o = some true := by
  cases o <;> simp [truthy]

/-- The filter test passes exactly when both flags are literally `true`. -/
theorem acceptsVerdict_iff (analysis : Verdict) :
    acceptsVerdict analysis = true ↔
      analysis.is_negative = some true ∧ analysis.needs_support = some true := by
  simp [acceptsVerdict, truthy_iff]

/-- The request parameters built by `search_posts` do not depend on the
HTTP outcome. -/
theorem search_posts_fst (query : String) (max_results : Int)
    (resp : HttpResult SearchBody) :
    (search_posts query max_results resp).1 = searchRequestParams query max_results := by
  cases resp with
  | ok data =>
    by_cases h : data.errors.isSome <;> simp [search_posts, h]
  | fail e => rfl

/-! ### Concrete fixtures for witnesses and counterexamples -/

/-- A concrete post used in concrete instantiations. -/
def cxPost : Post :=
  { id := some "111", text := "feeling down", author_id := some "9",
    username := "someone", name := "Someone", created_at := none }

/-- A verdict that fails the outreach filter (both flags false). -/
def cxRejectVerdict : Verdict :=
  { is_negative := some false, sentiment := some "neutral", severity := some "low",
    concerns := some [], needs_support := some false, reasoning := none }

/-- A verdict that passes the outreach filter (both flags true). -/
def cxAcceptVerdict : Verdict :=
  { is_negative := some true, sentiment := some "negative", severity := some "high",
    concerns := some ["distress"], needs_support := some true, reasoning := none }

/-- An empty contact dictionary (failed lookup). -/
def cxEmptyContact : ContactInfo :=
  { username := none, name := none, description := none, location := none,
    url := none, profile_url := none }

/-- A `json.loads` stand-in that parses exactly the text `"42"`. -/
def cxLoads : String → Option Verdict :=
  fun s => if s = "42" then some cxAcceptVerdict else none

/-! ### Claims -/

/-- C4: for every integer `max_results`, the value actually used in the
search request is clamped to `[10, 100]`: below 10 becomes 10, above 100
becomes 100, and values already in range are unchanged. -/
theorem C4_max_results_clamped (query : String) (max_results : Int)
    (resp : HttpResult SearchBody) :
    (search_posts query max_results resp).1.max_results =
      if max_results < 10 then 10
      else if 100 < max_results then 100
      else max_results := by
  rw [search_posts_fst]
  show max 10 (min max_results 100) = _
  omega

/-- C5: a blank (empty or all-whitespace) query is replaced by the
literal default `"lang:en -is:retweet"` in the request actually sent;
any non-blank query is sent unchanged. -/
theorem C5_default_query (query : String) (max_results : Int)
    (resp : HttpResult SearchBody) :
    (pyStrip query = "" →
      (search_posts query max_results resp).1.query = "lang:en -is:retweet") ∧
    (pyStrip query ≠ "" →
      (search_posts query max_results resp).1.query = query) := by
  rw [search_posts_fst]
  constructor
  · intro h
    simp [searchRequestParams, h]
  · intro h
    have hne : ¬(query = "" ∨ pyStrip query = "") := by
      rintro (rfl | hs)
      · exact h rfl
      · exact h hs
    simp only [searchRequestParams]
    rw [if_neg hne]

/-- Closed instance of `C5_default_query` at a whitespace query and at a
non-blank query. -/
theorem C5_default_query_witness :
    (search_posts "   " 50 (.fail (.requestError "x"))).1.query = "lang:en -is:retweet" ∧
    (search_posts "feeling sad" 50 (.fail (.requestError "x"))).1.query = "feeling sad" :=
  ⟨(C5_default_query "   " 50 _).1 (by decide),
   (C5_default_query "feeling sad" 50 _).2 (by decide)⟩

/-- C9: `MemoryManager.is_ready` and `RAGManager.is_ready` return `True`
in every internal state (even a failed initialization), so the health
endpoint always reports both subsystems ready. -/
theorem C9_is_ready_always_true (memReady ragReady : Bool) :
    MemoryManager.is_ready memReady = true ∧
    RAGManager.is_ready ragReady = true ∧
    health_check memReady ragReady =
      { status := "healthy", memory := true, rag := true } := by
  refine ⟨?_, ?_, ?_⟩ <;>
    simp [MemoryManager.is_ready, RAGManager.is_ready, health_check]

/-- C1 counterexample: a request failure inside `fetch_trends_by_woeid`
is propagated to the caller rather than replaced by a default value. -/
theorem C1_trends_propagates :
    fetch_trends_by_woeid 1 20 none
        (.fail (.requestError "Connection timed out")) =
      .error (.requestError "Connection timed out") := rfl

/-- C1 amended: the API-calling functions of `analyze_and_support.py`
(post search, sentiment classification, user lookup) catch every request
failure and return an empty or neutral default, while the trends fetcher
`fetch_trends_by_woeid` re-raises, propagating the failure. -/
theorem C1_error_defaults (e : HttpFailure) (loads : String → Option Verdict)
    (query : String) (max_results : Int) (woeid max_trends : Int)
    (trend_fields : Option (List String)) :
    analyze_sentiment loads (.fail e) = apiErrorVerdict e ∧
    (search_posts query max_results (.fail e)).2 = [] ∧
    get_user_info (.fail e) = none ∧
    fetch_trends_by_woeid woeid max_trends trend_fields (.fail e) = .error e :=
  ⟨rfl, rfl, rfl, rfl⟩

/-- C2: the filter stage keeps a post exactly when its verdict has both
`is_negative` and `needs_support` equal to `true`; a pair is in the
accepted list iff the post was fetched, the verdict is its
classification, and both flags are `true`. -/
theorem C2_filter_both_flags (analyze : Post → Verdict) (posts : List Post)
    (p : Post) (a : Verdict) :
    (p, a) ∈ negativePostsLoop analyze posts ↔
      p ∈ posts ∧ a = analyze p ∧
        a.is_negative = some true ∧ a.needs_support = some true := by
  induction posts with
  | nil => simp [negativePostsLoop]
  | cons q rest ih =>
    simp only [negativePostsLoop]
    by_cases h : acceptsVerdict (analyze q) = true
    · rw [if_pos h]
      rw [acceptsVerdict_iff] at h
      simp only [List.mem_cons, Prod.mk.injEq, ih]
      constructor
      · rintro (⟨rfl, rfl⟩ | ⟨hp, rfl, h1, h2⟩)
        · exact ⟨Or.inl rfl, rfl, h.1, h.2⟩
        · exact ⟨Or.inr hp, rfl, h1, h2⟩
      · rintro ⟨rfl | hp, rfl, h1, h2⟩
        · exact Or.inl ⟨rfl, rfl⟩
        · exact Or.inr ⟨hp, rfl, h1, h2⟩
    · rw [if_neg h]
      simp only [List.mem_cons, ih]
      constructor
      · rintro ⟨hp, rfl, h1, h2⟩
        exact ⟨Or.inr hp, rfl, h1, h2⟩
      · rintro ⟨rfl | hp, rfl, h1, h2⟩
        · exact absurd ((acceptsVerdict_iff _).mpr ⟨h1, h2⟩) h
        · exact ⟨hp, rfl, h1, h2⟩

/-- Closed instance of `C2_filter_both_flags`: an accepted pair is kept,
and a rejected verdict's pair is not. -/
theorem C2_filter_both_flags_witness :
    (cxPost, cxAcceptVerdict) ∈
        negativePostsLoop (fun _ => cxAcceptVerdict) [cxPost] ∧
    (cxPost, cxRejectVerdict) ∉
        negativePostsLoop (fun _ => cxRejectVerdict) [cxPost] :=
  ⟨(C2_filter_both_flags (fun _ => cxAcceptVerdict) [cxPost] cxPost cxAcceptVerdict).mpr
      ⟨by simp, rfl, rfl, rfl⟩,
   fun hmem => by
     have hflag := ((C2_filter_both_flags (fun _ => cxRejectVerdict) [cxPost] cxPost
       cxRejectVerdict).mp hmem).2.2.1
     simp [cxRejectVerdict] at hflag⟩

/-- C3: the JSON-salvage parser returns the object parsed from the
(fence-extracted) content whenever that text parses, falls back to the
heuristic verdict whenever parsing fails (never raising), and the
extraction step returns exactly the stripped text between the fenced
code-block markers when they are present. -/
theorem C3_json_salvage (loads : String → Option Verdict) (content : String) :
    (∀ v, loads (extractFenced content) = some v →
      analyze_sentiment loads (.ok content) = v) ∧
    (loads (extractFenced content) = none →
      analyze_sentiment loads (.ok content) = heuristicVerdict (extractFenced content)) ∧
    extractFenced "Sure! ```json 42 ``` hope it helps" = "42" ∧
    extractFenced "Sure! ``` 42 ``` hope it helps" = "42" ∧
    (pyContains content "```json" = false → pyContains content "```" = false →
      extractFenced content = content) := by
  refine ⟨?_, ?_, by decide, by decide, ?_⟩
  · intro v hv
    simp [analyze_sentiment, parseSentimentContent, hv]
  · intro hv
    simp [analyze_sentiment, parseSentimentContent, hv]
  · intro h1 h2
    simp [extractFenced, h1, h2]

/-- Closed instance of `C3_json_salvage`: a fenced valid-JSON response
yields the parsed verdict; an unparseable response yields the heuristic
fallback. -/
theorem C3_json_salvage_witness :
    analyze_sentiment cxLoads (.ok "Sure! ```json 42 ``` hope it helps") =
      cxAcceptVerdict ∧
    analyze_sentiment cxLoads (.ok "I cannot answer that") =
      heuristicVerdict (extractFenced "I cannot answer that") :=
  ⟨(C3_json_salvage cxLoads "Sure! ```json 42 ``` hope it helps").1
      cxAcceptVerdict (by decide),
   (C3_json_salvage cxLoads "I cannot answer that").2.1 (by decide)⟩

/-- C10: whenever JSON parsing of the (fence-extracted) content fails,
the fallback verdict has `needs_support = true` and
`severity = "medium"` unconditionally, `is_negative` is `true` exactly
when the lower-cased content contains `"negative"` or `"true"`, and in
that case the verdict passes the outreach filter. -/
theorem C10_heuristic_fallback (loads : String → Option Verdict) (content : String)
    (h : loads (extractFenced content) = none) :
    (analyze_sentiment loads (.ok content)).needs_support = some true ∧
    (analyze_sentiment loads (.ok content)).severity = some "medium" ∧
    ((analyze_sentiment loads (.ok content)).is_negative = some true ↔
      (pyContains (pyLower (extractFenced content)) "negative" = true ∨
       pyContains (pyLower (extractFenced content)) "true" = true)) ∧
    ((pyContains (pyLower (extractFenced content)) "negative" = true ∨
      pyContains (pyLower (extractFenced content)) "true" = true) →
      acceptsVerdict (analyze_sentiment loads (.ok content)) = true) := by
  have he : analyze_sentiment loads (.ok content) =
      heuristicVerdict (extractFenced content) := by
    simp [analyze_sentiment, parseSentimentContent, h]
  rw [he]
  refine ⟨rfl, rfl, ?_, ?_⟩
  · simp [heuristicVerdict]
  · intro hc
    rcases hc with hc | hc <;>
      simp [heuristicVerdict, acceptsVerdict, truthy, hc]

/-- Closed instance of `C10_heuristic_fallback` at the unparseable
response `"The answer is true"`. -/
theorem C10_heuristic_fallback_witness :
    (analyze_sentiment (fun _ => none) (.ok "The answer is true")).needs_support =
        some true ∧
    (analyze_sentiment (fun _ => none) (.ok "The answer is true")).severity =
        some "medium" ∧
    ((analyze_sentiment (fun _ => none) (.ok "The answer is true")).is_negative =
        some true ↔
      (pyContains (pyLower (extractFenced "The answer is true")) "negative" = true ∨
       pyContains (pyLower (extractFenced "The answer is true")) "true" = true)) ∧
    ((pyContains (pyLower (extractFenced "The answer is true")) "negative" = true ∨
      pyContains (pyLower (extractFenced "The answer is true")) "true" = true) →
      acceptsVerdict (analyze_sentiment (fun _ => none) (.ok "The answer is true")) =
        true) :=
  C10_heuristic_fallback (fun _ => none) "The answer is true" rfl

/-- The accepted posts, in order, are exactly the fetched posts passing
the filter. -/
theorem negativePostsLoop_map_fst (analyze : Post → Verdict) (posts : List Post) :
    (negativePostsLoop analyze posts).map Prod.fst =
      posts.filter fun p => acceptsVerdict (analyze p) := by
  induction posts with
  | nil => rfl
  | cons q rest ih =>
    by_cases h : acceptsVerdict (analyze q) = true <;>
      simp [negativePostsLoop, List.filter_cons, h, ih]

/-- Each accepted pair yields exactly one record, carrying the post's
text, in order. -/
theorem processNegative_map_original (contact : Post → ContactInfo)
    (draft : Post → Verdict → String) (l : List (Post × Verdict)) :
    (processNegative contact draft l).map (fun r => r.original_post) =
      l.map fun pv => pv.1.text := by
  induction l with
  | nil => rfl
  | cons pv rest ih =>
    obtain ⟨p, a⟩ := pv
    simp [processNegative, mkOutreachRecord, ih]

/-- `processNegative` produces one record per accepted pair. -/
theorem processNegative_length (contact : Post → ContactInfo)
    (draft : Post → Verdict → String) (l : List (Post × Verdict)) :
    (processNegative contact draft l).length = l.length := by
  induction l with
  | nil => rfl
  | cons pv rest ih =>
    obtain ⟨p, a⟩ := pv
    simp [processNegative, ih]

/-- C7: the pipeline processes posts in fetched order with no
re-ordering and no deduplication: the records' original posts are
exactly the accepted posts' texts in order, the accepted posts form a
sublist (order-preserving subsequence) of the input, one record is
produced per accepted post, and an accepted post occurring twice is
accepted as often as it occurs. -/
theorem C7_order_preserved (analyze : Post → Verdict) (contact : Post → ContactInfo)
    (draft : Post → Verdict → String) (query : String) (posts : List Post) :
    ((scan_and_analyze analyze contact draft query posts).1.map
        (fun r => r.original_post) =
      (posts.filter fun p => acceptsVerdict (analyze p)).map Post.text) ∧
    List.Sublist (posts.filter fun p => acceptsVerdict (analyze p)) posts ∧
    ((scan_and_analyze analyze contact draft query posts).1.length =
      (posts.filter fun p => acceptsVerdict (analyze p)).length) ∧
    ∀ p : Post, acceptsVerdict (analyze p) = true →
      (posts.filter fun q => acceptsVerdict (analyze q)).count p = posts.count p := by
  by_cases hp : posts.isEmpty
  · rw [List.isEmpty_iff] at hp
    subst hp
    exact ⟨rfl, List.nil_sublist _, rfl, fun p _ => rfl⟩
  · have hcond : ¬posts.isEmpty = true := hp
    refine ⟨?_, List.filter_sublist posts, ?_, ?_⟩
    · simp only [scan_and_analyze, if_neg hcond]
      rw [processNegative_map_original, ← negativePostsLoop_map_fst analyze posts,
        List.map_map]
      rfl
    · simp only [scan_and_analyze, if_neg hcond]
      rw [processNegative_length, ← negativePostsLoop_map_fst analyze posts,
        List.length_map]
    · intro p hacc
      exact List.count_filter hacc

/-- Closed instance of `C7_order_preserved`: a duplicated accepted post
is counted twice. -/
theorem C7_order_preserved_witness :
    ([cxPost, cxPost].filter fun q =>
        acceptsVerdict ((fun _ => cxAcceptVerdict) q)).count cxPost =
      [cxPost, cxPost].count cxPost :=
  (C7_order_preserved (fun _ => cxAcceptVerdict) (fun _ => cxEmptyContact)
    (fun _ _ => "msg") "q" [cxPost, cxPost]).2.2.2 cxPost (by decide)

/-- C6 counterexample: a run that fetches a post but accepts none writes
no report file at all (the guard `if results_data:` skips the write), so
the persistence stage does not write a report on every run. -/
theorem C6_no_report_when_empty :
    (scan_and_analyze (fun _ => cxRejectVerdict) (fun _ => cxEmptyContact)
        (fun _ _ => "") "q" [cxPost]).1 = [] ∧
    (scan_and_analyze (fun _ => cxRejectVerdict) (fun _ => cxEmptyContact)
        (fun _ _ => "") "q" [cxPost]).2 = [] := by decide

/-- C6 amended: when at least one post is accepted the run writes
exactly one report, containing every drafted record together with the
run's query and counts; when no record was produced (zero accepted
posts, or no posts at all) no report is written. -/
theorem C6_one_report_when_nonempty (analyze : Post → Verdict)
    (contact : Post → ContactInfo) (draft : Post → Verdict → String)
    (query : String) (posts : List Post) :
    ((scan_and_analyze analyze contact draft query posts).1 = [] →
      (scan_and_analyze analyze contact draft query posts).2 = []) ∧
    ((scan_and_analyze analyze contact draft query posts).1 ≠ [] →
      (scan_and_analyze analyze contact draft query posts).2 =
        [{ query := query
           total_posts_scanned := posts.length
           negative_posts_found := (negativePostsLoop analyze posts).length
           results := (scan_and_analyze analyze contact draft query posts).1 }]) := by
  by_cases hp : posts.isEmpty
  · rw [List.isEmpty_iff] at hp
    subst hp
    exact ⟨fun _ => rfl, fun h => absurd rfl h⟩
  · have hcond : ¬posts.isEmpty = true := hp
    simp only [scan_and_analyze, if_neg hcond]
    constructor
    · intro h
      simp [savedReports, h]
    · intro h
      simp [savedReports, List.isEmpty_iff, h]

/-- Closed instance of `C6_one_report_when_nonempty`: a run accepting
one post writes exactly one report holding that run's records. -/
theorem C6_one_report_when_nonempty_witness :
    (scan_and_analyze (fun _ => cxAcceptVerdict) (fun _ => cxEmptyContact)
        (fun _ _ => "msg") "q" [cxPost]).2 =
      [{ query := "q"
         total_posts_scanned := [cxPost].length
         negative_posts_found :=
           (negativePostsLoop (fun _ => cxAcceptVerdict) [cxPost]).length
         results := (scan_and_analyze (fun _ => cxAcceptVerdict)
           (fun _ => cxEmptyContact) (fun _ _ => "msg") "q" [cxPost]).1 }] :=
  (C6_one_report_when_nonempty (fun _ => cxAcceptVerdict) (fun _ => cxEmptyContact)
    (fun _ _ => "msg") "q" [cxPost]).2 (by decide)

/-- A stored memory entry matching the witness query. -/
def cxMemSad : MemoryEntry :=
  { text := some "User said: I feel SAD today", timestamp := none }

/-- A stored memory entry not matching the witness query. -/
def cxMemOk : MemoryEntry :=
  { text := some "User said: all good", timestamp := none }

/-- C8: with the memory library unavailable, `search_memories` returns
exactly the stored entries whose text contains the query
case-insensitively, in stored order (an order-preserving subsequence of
the store), truncated to at most `limit` entries. -/
theorem C8_fallback_substring (memory : Option Mem0Backend)
    (stored : List MemoryEntry) (user_id query : String) (limit : Int)
    (h : 0 ≤ limit) :
    search_memories false memory stored user_id query limit =
      (stored.filter fun mem =>
        pyContains (pyLower (mem.text.getD "")) (pyLower query)).take limit.toNat ∧
    List.Sublist (search_memories false memory stored user_id query limit) stored ∧
    (search_memories false memory stored user_id query limit).length ≤ limit.toNat ∧
    ∀ mem ∈ search_memories false memory stored user_id query limit,
      pyContains (pyLower (mem.text.getD "")) (pyLower query) = true := by
  have hfile : search_memories false memory stored user_id query limit =
      (stored.filter fun mem =>
        pyContains (pyLower (mem.text.getD "")) (pyLower query)).take limit.toNat := by
    show searchFileMemories stored query limit = _
    simp [searchFileMemories, pySlice, h]
  refine ⟨hfile, ?_, ?_, ?_⟩
  · rw [hfile]
    exact (List.take_sublist _ _).trans (List.filter_sublist _)
  · rw [hfile]
    exact List.length_take_le _ _
  · intro mem hmem
    rw [hfile] at hmem
    exact (List.mem_filter.mp (List.mem_of_mem_take hmem)).2

/-- Closed instance of `C8_fallback_substring`: the case-insensitive
match is kept, the non-match dropped. -/
theorem C8_fallback_substring_witness :
    search_memories false none [cxMemSad, cxMemOk] "u1" "sad" 5 =
      ([cxMemSad, cxMemOk].filter fun mem =>
        pyContains (pyLower (mem.text.getD "")) (pyLower "sad")).take (5 : Int).toNat :=
  (C8_fallback_substring none [cxMemSad, cxMemOk] "u1" "sad" 5 (by decide)).1
